import Mathlib

/-!
Shallow embedding of the entity-synchronization core of soru-slack-client
(src/structures/client.ts and src/structures/team.ts).

JavaScript `Map`s are modelled as insertion-ordered association lists,
optional / possibly-`undefined` fields as `Option`, and JavaScript string
truthiness (`undefined` and `""` are falsy) as `strTruthy`.  Methods that can
throw synchronously (`Client.web` when no web client is registered for a team)
return `Except String`.  The asynchronous `web(...).team.info(...).then(...)`
auto-create continuation is modelled by passing the response of the request
API as an explicit oracle `fetch : String → Option ITeamData` (`none` models
both a failed call and a response without a `team` field) and running the
continuation atomically, matching the run-to-completion scheduling of the
event loop.  Event emission is modelled by returning the list of emitted
domain events.
-/

/-- JavaScript string truthiness for a possibly-undefined string:
`undefined` and `""` are falsy. -/
def strTruthy : Option String → Bool
  | none => false
  | some s => !(s == "")

/-- JavaScript `a || b` on possibly-undefined strings. -/
def jsOr (a b : Option String) : Option String :=
  if strTruthy a then a else b

/-- Lookup in an insertion-ordered association list (JavaScript `Map.get`). -/
def getEntry {α : Type} : List (String × α) → String → Option α
  | [], _ => none
  | (k', v) :: rest, k => if k' == k then some v else getEntry rest k

/-- Update/insert in an insertion-ordered association list (JavaScript
`Map.set`): an existing key keeps its position, a new key is appended. -/
def setEntry {α : Type} : List (String × α) → String → α → List (String × α)
  | [], k, v => [(k, v)]
  | (k', v') :: rest, k, v =>
    if k' == k then (k, v) :: rest else (k', v') :: setEntry rest k v

/-- Modelled from the spec: base.ts is not in the sources; a team icon is an
opaque record (its contents are never inspected by the embedded code). -/
structure IIconData where
  image : String
deriving DecidableEq, Repr

/-- Input payload of `Client.addTeam` / `Team._patch` (ITeamData, team.ts).
An `Option` field is `none` when the property is absent from the payload
(`hasOwnProperty` is false).  For `icon` the inner `Option` is the value:
`some none` models a present-but-falsy icon (stored as `null`). -/
structure ITeamData where
  id : String
  fakeId : Option String
  name : Option String
  domain : Option String
  icon : Option (Option IIconData)
deriving DecidableEq, Repr

/-- Input payload of `Client.addUser` (IUserData, user.ts).  user.ts is not in
the sources; the fields used by client.ts are `id`, `bot_id` and `team_id`.
`fullBot` is modelled from the spec: the flag distinguishing synthetic
bot-identities from human accounts, carried by the payload. -/
structure IUserData where
  id : Option String
  bot_id : Option String
  team_id : String
  name : Option String
  fullBot : Bool
deriving DecidableEq, Repr

/-- Input payload of `Client.addChannel` (IChannelData, channel.ts).
channel.ts is not in the sources; the fields used by client.ts are `id`,
`team_id` and `shared_team_ids`. -/
structure IChannelData where
  id : String
  team_id : Option String
  shared_team_ids : Option (List String)
  name : Option String
deriving DecidableEq, Repr

/-- Modelled from the spec: user.ts is not in the sources.  A user carries its
id, a team back-reference, profile fields, the `fullBot` flag and a `partial`
flag (named `partialFlag` here). -/
structure User where
  id : String
  teamId : String
  name : String
  fullBot : Bool
  partialFlag : Bool
deriving DecidableEq, Repr

/-- The key under which client.ts looks up / stores a user:
`data.id || data.bot_id` (client.ts line 509). -/
def userKey (d : IUserData) : String :=
  (jsOr d.id d.bot_id).getD ""

/-- Modelled from the spec: construction of a new `User` from its payload
(`new User(this, data)`, client.ts line 519); fields are taken from the
payload and the entity starts partial. -/
def User.new (d : IUserData) : User :=
  { id := userKey d
    teamId := d.team_id
    name := d.name.getD ""
    fullBot := d.fullBot
    partialFlag := true }

/-- Modelled from the spec: `User._patch` is property-presence-gated; the
`fullBot` flag reflects the incoming payload. -/
def User._patch (u : User) (d : IUserData) : User :=
  { u with
    name := match d.name with | some n => n | none => u.name
    fullBot := d.fullBot }

/-- Modelled from the spec: channel.ts is not in the sources.  A channel
carries its id, a team back-reference and a name. -/
structure Channel where
  id : String
  teamId : String
  name : String
deriving DecidableEq, Repr

/-- Team-id resolution of `Client.addChannel` (client.ts line 549):
`data.team_id || (data.shared_team_ids && data.shared_team_ids[0])`, then the
falsiness guard `if (!teamId) return` (line 550). -/
def channelTeamId (d : IChannelData) : Option String :=
  let tid := jsOr d.team_id (d.shared_team_ids.bind List.head?)
  if strTruthy tid then tid else none

/-- Modelled from the spec: construction of a new `Channel` from its payload
(`new Channel(this, data)`, client.ts line 563). -/
def Channel.new (d : IChannelData) : Channel :=
  { id := d.id
    teamId := (channelTeamId d).getD ""
    name := d.name.getD "" }

/-- Modelled from the spec: `Channel._patch` is property-presence-gated. -/
def Channel._patch (c : Channel) (d : IChannelData) : Channel :=
  { c with name := match d.name with | some n => n | none => c.name }

/-- The Team entity (team.ts lines 29-46); `partial` is named `partialFlag`
here. -/
structure Team where
  id : String
  name : String
  domain : String
  email : Option String
  emailDomain : Option String
  icon : Option IIconData
  enterpriseId : Option String
  enterpriseName : Option String
  partialFlag : Bool
  fakeId : Option String
  users : List (String × User)
  channels : List (String × Channel)
deriving DecidableEq, Repr

/-- `Team._patch` (team.ts lines 48-68).  `tokens` is the key set of
`client.tokens`, read by the final `this.client.tokens.has(this.id)` clause:
when the client holds a token for the team's id, a `fakeId` on a non-partial
team re-sets `partial` to true, and `fakeId` is always reset to `null`. -/
def Team._patch (tokens : List String) (t : Team) (d : ITeamData) : Team :=
  let t := { t with id := d.id }
  let t := match d.name with | some n => { t with name := n } | none => t
  let t := match d.domain with | some dm => { t with domain := dm } | none => t
  let t := match d.icon with | some ic => { t with icon := ic } | none => t
  let t := match d.fakeId with | some f => { t with fakeId := some f } | none => t
  if tokens.contains t.id then
    let t := if t.fakeId.isSome && !t.partialFlag then { t with partialFlag := true } else t
    { t with fakeId := none }
  else t

/-- The `Team` constructor (team.ts lines 43-46): fresh default fields then
`this._patch(data)`. -/
def Team.new (tokens : List String) (d : ITeamData) : Team :=
  Team._patch tokens
    { id := ""
      name := ""
      domain := ""
      email := none
      emailDomain := none
      icon := none
      enterpriseId := none
      enterpriseName := none
      partialFlag := true
      fakeId := none
      users := []
      channels := [] } d

/-- Modelled from the spec: message.ts is not in the sources.  An embedded
message payload (`data.message` / `data.previous_message`) carries the acting
user / bot id and the body. -/
structure IMessagePayload where
  user : Option String
  bot_id : Option String
  text : String
  ts : String
deriving DecidableEq, Repr

/-- The `item` sub-object of a message-shaped event
(`data.channel || data.item.channel`, client.ts line 632). -/
structure IItemData where
  channel : Option String
deriving DecidableEq, Repr

/-- A raw message-shaped event as consumed by `Client.handleMessageEvent`
(client.ts lines 622-653).  `team_id` is always set by the dispatching caller
before the handler runs (client.ts lines 295, 437).  `fullBot` is the modelled
synthetic-bot marker of the payload viewed as user data. -/
structure IMessageEventData where
  subtype : Option String
  user : Option String
  bot_id : Option String
  team_id : String
  channel : Option String
  item : Option IItemData
  message : Option IMessagePayload
  previous_message : Option IMessagePayload
  text : String
  ts : String
  fullBot : Bool
deriving DecidableEq, Repr

/-- Modelled from the spec: a transient Message value object
(`new Message(this, payload, teamId, channelId, userId)`): it carries the
payload it was built from plus the team/channel/user references. -/
structure Message where
  data : Option IMessagePayload
  teamId : String
  channelId : Option String
  userId : Option String
deriving DecidableEq, Repr

/-- Construction of a `Message` from an embedded payload. -/
def Message.new (p : Option IMessagePayload) (teamId : String)
    (channelId : Option String) (userId : Option String) : Message :=
  { data := p, teamId := teamId, channelId := channelId, userId := userId }

/-- The payload view of a whole message event, used when the event itself is
passed to the `Message` constructor (client.ts line 650). -/
def eventPayload (e : IMessageEventData) : IMessagePayload :=
  { user := e.user, bot_id := e.bot_id, text := e.text, ts := e.ts }

/-- The user-data view of a message event, used by the
`if (data.bot_id) this.addUser(data)` step (client.ts lines 626-629). -/
def userDataOfEvent (e : IMessageEventData) : IUserData :=
  { id := none
    bot_id := e.bot_id
    team_id := e.team_id
    name := none
    fullBot := e.fullBot }

/-- The domain events emitted by the client (`this.emit(...)`). -/
inductive Event where
  | addTeam (t : Team)
  | changeTeam (oldTeam newTeam : Team)
  | addUser (u : User)
  | changeUser (oldUser newUser : User)
  | addChannel (c : Channel)
  | changeChannel (oldChannel newChannel : Channel)
  | message (m : Message)
  | messageChanged (oldMessage newMessage : Message)
  | messageDeleted (oldMessage : Message)
  | disconnected
deriving DecidableEq, Repr

/-- The entity-store state of `Client` (client.ts lines 56-62): the token map,
the team map (each team owning its users and channels), the key sets of the
web and rtm client maps, and the startup-suppression set. -/
structure ClientState where
  tokens : List (String × String)
  teams : List (String × Team)
  webMap : List String
  rtmMap : List String
  startup : List String
deriving DecidableEq, Repr

/-- `Client.addTeam` (client.ts lines 591-606).  `_clone` is a structural
snapshot, which for an immutable Lean value is the value itself. -/
def Client.addTeam (st : ClientState) (d : ITeamData) : ClientState × List Event :=
  match getEntry st.teams d.id with
  | some team =>
    let oldTeam := team
    let team' := Team._patch (st.tokens.map Prod.fst) team d
    ({ st with teams := setEntry st.teams d.id team' },
     if st.startup.contains team'.id then [] else [Event.changeTeam oldTeam team'])
  | none =>
    let newTeam := Team.new (st.tokens.map Prod.fst) d
    ({ st with teams := setEntry st.teams newTeam.id newTeam },
     if st.startup.contains newTeam.id then [] else [Event.addTeam newTeam])

/-- The team-found branch of `Client.addUser` (client.ts lines 510-528).
`subscribePresence` is an external side effect with no store mutation and no
domain event, so it does not appear in the result. -/
def upsertUserInTeam (st : ClientState) (team : Team) (d : IUserData) :
    ClientState × List Event :=
  let userId := userKey d
  match getEntry team.users userId with
  | some user =>
    let oldUser := user
    let user' := User._patch user d
    let team' := { team with users := setEntry team.users userId user' }
    ({ st with teams := setEntry st.teams d.team_id team' },
     if !st.startup.contains team.id && !user'.fullBot then
       [Event.changeUser oldUser user'] else [])
  | none =>
    let newUser := User.new d
    let team' := { team with users := setEntry team.users newUser.id newUser }
    ({ st with teams := setEntry st.teams d.team_id team' },
     if !st.startup.contains team.id && !newUser.fullBot then
       [Event.addUser newUser] else [])

/-- `Client.addUser` (client.ts lines 507-538).  The team-unknown,
`createTeam` branch inlines the single recursive retry
`this.addUser(data, false)`: with `createTeam` false the retry either finds
the just-registered team and runs the team-found branch, or returns silently,
which is written out here (the recursion depth is exactly one). -/
def Client.addUser (fetch : String → Option ITeamData) (createTeam : Bool)
    (st : ClientState) (d : IUserData) : Except String (ClientState × List Event) :=
  match getEntry st.teams d.team_id with
  | some team => .ok (upsertUserInTeam st team d)
  | none =>
    if createTeam then
      if st.webMap.contains d.team_id then
        match fetch d.team_id with
        | some teamData =>
          let r1 := Client.addTeam st teamData
          match getEntry r1.1.teams d.team_id with
          | some team =>
            let r2 := upsertUserInTeam r1.1 team d
            .ok (r2.1, r1.2 ++ r2.2)
          | none => .ok (r1.1, r1.2)
        | none => .ok (st, [])
      else .error "Team not found"
    else .ok (st, [])

/-- The team-found branch of `Client.addChannel` (client.ts lines 554-571).
For a new channel outside startup, `newChan.join().catch(err => {}).then(...)`
swallows any join failure and then emits `addChannel`, so the event is emitted
unconditionally on that path. -/
def upsertChannelInTeam (st : ClientState) (team : Team) (teamKey : String)
    (d : IChannelData) : ClientState × List Event :=
  match getEntry team.channels d.id with
  | some chan =>
    let oldChan := chan
    let chan' := Channel._patch chan d
    let team' := { team with channels := setEntry team.channels d.id chan' }
    ({ st with teams := setEntry st.teams teamKey team' },
     if st.startup.contains team.id then [] else [Event.changeChannel oldChan chan'])
  | none =>
    let newChan := Channel.new d
    let team' := { team with channels := setEntry team.channels newChan.id newChan }
    ({ st with teams := setEntry st.teams teamKey team' },
     if st.startup.contains team.id then [] else [Event.addChannel newChan])

/-- `Client.addChannel` (client.ts lines 548-581), with the single recursive
retry `this.addChannel(data, false)` inlined exactly as in `Client.addUser`. -/
def Client.addChannel (fetch : String → Option ITeamData) (createTeam : Bool)
    (st : ClientState) (d : IChannelData) : Except String (ClientState × List Event) :=
  match channelTeamId d with
  | none => .ok (st, [])
  | some teamId =>
    match getEntry st.teams teamId with
    | some team => .ok (upsertChannelInTeam st team teamId d)
    | none =>
      if createTeam then
        if st.webMap.contains teamId then
          match fetch teamId with
          | some teamData =>
            let r1 := Client.addTeam st teamData
            match getEntry r1.1.teams teamId with
            | some team =>
              let r2 := upsertChannelInTeam r1.1 team teamId d
              .ok (r2.1, r1.2 ++ r2.2)
            | none => .ok (r1.1, r1.2)
          | none => .ok (st, [])
        else .error "Team not found"
      else .ok (st, [])

/-- The `userId` refinement loop of `Client.handleMessageEvent` (client.ts
lines 633-639): one step for one `tryKey` of `message`, `previous_message`. -/
def refineUserId (uid : Option String) (p : Option IMessagePayload) : Option String :=
  match p with
  | some m => if strTruthy uid then uid else jsOr m.user m.bot_id
  | none => uid

/-- `Client.handleMessageEvent` (client.ts lines 622-653).  The
`data.channel || data.item.channel` access throws a TypeError when both
`channel` is falsy and `item` is absent, modelled as an `Except.error`. -/
def Client.handleMessageEvent (fetch : String → Option ITeamData)
    (st : ClientState) (e : IMessageEventData) : Except String (ClientState × List Event) :=
  if [some "channel_join", some "channel_name", some "message_replied"].contains e.subtype then
    .ok (st, [])
  else
    match (if strTruthy e.bot_id then Client.addUser fetch true st (userDataOfEvent e)
           else .ok (st, [])) with
    | .error err => .error err
    | .ok (st1, evs1) =>
      match (if strTruthy e.channel then Except.ok e.channel
             else match e.item with
                  | some it => Except.ok it.channel
                  | none => Except.error "TypeError: data.item is undefined") with
      | .error err => .error err
      | .ok channelId =>
        let userId := refineUserId (refineUserId (jsOr e.user e.bot_id) e.message)
          e.previous_message
        let teamId := e.team_id
        if e.subtype == some "message_changed" then
          .ok (st1, evs1 ++ [Event.messageChanged
            (Message.new e.previous_message teamId channelId userId)
            (Message.new e.message teamId channelId userId)])
        else if e.subtype == some "message_deleted" then
          .ok (st1, evs1 ++ [Event.messageDeleted
            (Message.new e.previous_message teamId channelId userId)])
        else
          .ok (st1, evs1 ++ [Event.message
            (Message.new (some (eventPayload e)) teamId channelId userId)])

/-- `RECONNECT_PAUSE` (client.ts line 53). -/
def RECONNECT_PAUSE : Nat := 15000

/-- One realtime session of the Connection Supervisor: whether the session is
currently connected, and the delays of the restart timers currently pending
for it (each `setTimeout` in `reconnect`, client.ts line 163, appends one). -/
structure RtmSession where
  connected : Bool
  pendingRestarts : List Nat
deriving DecidableEq, Repr

/-- The `reconnect` closure (client.ts lines 160-172): `await rtm.disconnect()`
tears the session down, then `setTimeout(..., RECONNECT_PAUSE)` schedules
exactly one restart attempt. -/
def reconnect (s : RtmSession) : RtmSession :=
  { connected := false, pendingRestarts := s.pendingRestarts ++ [RECONNECT_PAUSE] }

/-- The `goodbye` handler (client.ts lines 192-195): `await reconnect()`. -/
def onGoodbye (s : RtmSession) : RtmSession := reconnect s

/-- The `disconnected` handler (client.ts lines 197-200): `await reconnect()`. -/
def onDisconnectedSignal (s : RtmSession) : RtmSession := reconnect s

/-- Firing the oldest pending restart timer (the `setTimeout` callback,
client.ts lines 163-171): `rtm.start()` either succeeds (`startOk`) or throws,
in which case the callback logs, emits the `disconnected` domain event and
schedules nothing further. -/
def fireRestart (s : RtmSession) (startOk : Bool) : RtmSession × List Event :=
  match s.pendingRestarts with
  | [] => (s, [])
  | _ :: rest =>
    if startOk then ({ connected := true, pendingRestarts := rest }, [])
    else ({ connected := s.connected, pendingRestarts := rest }, [Event.disconnected])

/-- The connection-level state of the client: the rtm session map and whether
the events adapter is running. -/
structure SupervisorState where
  rtmMap : List (String × RtmSession)
  eventsRunning : Bool
deriving DecidableEq, Repr

/-- `Client.disconnect` (client.ts lines 83-91): awaits `rtm.disconnect()` for
every session in `rtmMap`, then stops the events adapter.  No timer handle is
stored anywhere in client.ts and no `clearTimeout` exists, so pending restart
timers are left untouched. -/
def Client.disconnect (c : SupervisorState) : SupervisorState :=
  { rtmMap := c.rtmMap.map
      (fun p => (p.1, { connected := false, pendingRestarts := p.2.pendingRestarts }))
    eventsRunning := false }

/-- Firing a pending restart timer of one team's session after it was
scheduled: the timer closure captured its `rtm` object, so it acts on that
session regardless of any global disconnect in between. -/
def fireSessionRestart (c : SupervisorState) (teamId : String) (startOk : Bool) :
    SupervisorState × List Event :=
  match getEntry c.rtmMap teamId with
  | none => (c, [])
  | some s =>
    let r := fireRestart s startOk
    ({ c with rtmMap := setEntry c.rtmMap teamId r.1 }, r.2)

/-- One page of `conversations.list` (team.ts lines 98-111).  `next_cursor`
flattens `ret.response_metadata && ret.response_metadata.next_cursor`: `none`
models a missing metadata object or cursor. -/
structure IConversationsListResponse where
  ok : Bool
  channels : Option (List IChannelData)
  next_cursor : Option String
deriving DecidableEq, Repr

/-- One page of `users.list` (team.ts lines 118-128). -/
structure IUsersListResponse where
  ok : Bool
  members : Option (List IUserData)
  next_cursor : Option String
deriving DecidableEq, Repr

/-- The per-page upsert loop of the channel drain (team.ts lines 107-110):
each channel datum gets `team_id = this.id` and is passed to
`client.addChannel`. -/
def upsertChannelPage (fetch : String → Option ITeamData) (selfId : String) :
    ClientState → List IChannelData → Except String (ClientState × List Event)
  | st, [] => .ok (st, [])
  | st, cd :: cds =>
    match Client.addChannel fetch true st { cd with team_id := some selfId } with
    | .error e => .error e
    | .ok (st1, e1) =>
      match upsertChannelPage fetch selfId st1 cds with
      | .error e => .error e
      | .ok (st2, e2) => .ok (st2, e1 ++ e2)

/-- The channel-pagination loop of `Team.load` (team.ts lines 95-113),
with the successive responses of `conversations.list` stubbed as a list
consumed one per call.  Returns the final state, the emitted events, the
aggregated channel data of all drained pages and the number of calls issued.
An exhausted stub list models a call with no response and is an error. -/
def Team.loadChannels (fetch : String → Option ITeamData) (selfId : String) :
    ClientState → List IConversationsListResponse →
    Except String (ClientState × List Event × List IChannelData × Nat)
  | _, [] => .error "no stubbed response"
  | st, r :: rest =>
    if !r.ok then .error "Bad response"
    else match r.channels with
    | none => .error "Bad response"
    | some chans =>
      match upsertChannelPage fetch selfId st chans with
      | .error e => .error e
      | .ok (st1, evs1) =>
        if strTruthy r.next_cursor then
          match Team.loadChannels fetch selfId st1 rest with
          | .error e => .error e
          | .ok (st2, evs2, items2, n2) => .ok (st2, evs1 ++ evs2, chans ++ items2, n2 + 1)
        else .ok (st1, evs1, chans, 1)

/-- The per-page upsert loop of the user drain (team.ts lines 125-127):
each member is passed to `client.addUser` unchanged. -/
def upsertUserPage (fetch : String → Option ITeamData) :
    ClientState → List IUserData → Except String (ClientState × List Event)
  | st, [] => .ok (st, [])
  | st, ud :: uds =>
    match Client.addUser fetch true st ud with
    | .error e => .error e
    | .ok (st1, e1) =>
      match upsertUserPage fetch st1 uds with
      | .error e => .error e
      | .ok (st2, e2) => .ok (st2, e1 ++ e2)

/-- The user-pagination loop of `Team.load` (team.ts lines 114-130), stubbed
like `Team.loadChannels`. -/
def Team.loadUsers (fetch : String → Option ITeamData) :
    ClientState → List IUsersListResponse →
    Except String (ClientState × List Event × List IUserData × Nat)
  | _, [] => .error "no stubbed response"
  | st, r :: rest =>
    if !r.ok then .error "Bad response"
    else match r.members with
    | none => .error "Bad response"
    | some mems =>
      match upsertUserPage fetch st mems with
      | .error e => .error e
      | .ok (st1, evs1) =>
        if strTruthy r.next_cursor then
          match Team.loadUsers fetch st1 rest with
          | .error e => .error e
          | .ok (st2, evs2, items2, n2) => .ok (st2, evs1 ++ evs2, mems ++ items2, n2 + 1)
        else .ok (st1, evs1, mems, 1)

/-! ## Helper lemmas -/

theorem getEntry_setEntry_self {α : Type} (m : List (String × α)) (k : String) (v : α) :
    getEntry (setEntry m k v) k = some v := by
  induction m with
  | nil => simp [setEntry, getEntry]
  | cons h t ih =>
    by_cases hk : h.1 == k
    · simp only [setEntry]
      rw [if_pos hk]
      simp [getEntry]
    · simp only [setEntry]
      rw [if_neg (by simp_all)]
      simp only [getEntry]
      rw [if_neg (by simp_all)]
      exact ih

theorem Team.patch_id (tokens : List String) (t : Team) (d : ITeamData) :
    (Team._patch tokens t d).id = d.id := by
  unfold Team._patch
  cases d.name <;> cases d.domain <;> cases d.icon <;> cases d.fakeId <;>
    (dsimp only []; split <;> (try split) <;> rfl)

theorem Team.new_id (tokens : List String) (d : ITeamData) :
    (Team.new tokens d).id = d.id :=
  Team.patch_id tokens _ d

/-- Under startup suppression the user-upsert branch emits nothing. -/
theorem upsertUserInTeam_startup (st : ClientState) (team : Team) (d : IUserData)
    (h : team.id ∈ st.startup) : (upsertUserInTeam st team d).2 = [] := by
  unfold upsertUserInTeam
  cases hu : getEntry team.users (userKey d) <;> simp [hu, h]

/-- The user-upsert branch always stores the user under `userKey d` in the
team registered under `d.team_id`. -/
theorem upsertUserInTeam_stores (st : ClientState) (team : Team) (d : IUserData) :
    ∃ team', getEntry (upsertUserInTeam st team d).1.teams d.team_id = some team' ∧
      (getEntry team'.users (userKey d)).isSome = true := by
  unfold upsertUserInTeam
  dsimp only []
  cases hu : getEntry team.users (userKey d) with
  | some user =>
    refine ⟨_, getEntry_setEntry_self _ _ _, ?_⟩
    rw [getEntry_setEntry_self]
    rfl
  | none =>
    refine ⟨_, getEntry_setEntry_self _ _ _, ?_⟩
    show (getEntry (setEntry team.users (User.new d).id (User.new d)) (userKey d)).isSome = true
    have hid : (User.new d).id = userKey d := rfl
    rw [hid, getEntry_setEntry_self]
    rfl

/-- Under startup suppression the channel-upsert branch emits nothing. -/
theorem upsertChannelInTeam_startup (st : ClientState) (team : Team)
    (teamKey : String) (d : IChannelData) (h : team.id ∈ st.startup) :
    (upsertChannelInTeam st team teamKey d).2 = [] := by
  unfold upsertChannelInTeam
  cases hch : getEntry team.channels d.id <;> simp [hch, h]

/-- The channel-upsert branch always stores the channel under `d.id` in the
team registered under `teamKey`. -/
theorem upsertChannelInTeam_stores (st : ClientState) (team : Team)
    (teamKey : String) (d : IChannelData) :
    ∃ team', getEntry (upsertChannelInTeam st team teamKey d).1.teams teamKey = some team' ∧
      (getEntry team'.channels d.id).isSome = true := by
  unfold upsertChannelInTeam
  dsimp only []
  cases hch : getEntry team.channels d.id with
  | some chan =>
    refine ⟨_, getEntry_setEntry_self _ _ _, ?_⟩
    rw [getEntry_setEntry_self]
    rfl
  | none =>
    refine ⟨_, getEntry_setEntry_self _ _ _, ?_⟩
    show (getEntry (setEntry team.channels (Channel.new d).id (Channel.new d)) d.id).isSome = true
    have hid : (Channel.new d).id = d.id := rfl
    rw [hid, getEntry_setEntry_self]
    rfl

/-! ## C1 -/

/-- C1: while a team's id is in the startup set, an upsert touching that
team's entities (`addTeam` on the team itself, `addUser` / `addChannel` on a
resolvable team) emits no `add*`/`change*` event, and the entity is still
created or patched silently. -/
theorem c1_startup_suppression :
    (∀ (st : ClientState) (d : ITeamData), d.id ∈ st.startup →
      (Client.addTeam st d).2 = [] ∧
      (getEntry (Client.addTeam st d).1.teams d.id).isSome = true) ∧
    (∀ (fetch : String → Option ITeamData) (st : ClientState) (d : IUserData)
      (team : Team), getEntry st.teams d.team_id = some team →
      team.id ∈ st.startup →
      ∃ st' : ClientState, Client.addUser fetch true st d = .ok (st', []) ∧
        ∃ team', getEntry st'.teams d.team_id = some team' ∧
          (getEntry team'.users (userKey d)).isSome = true) ∧
    (∀ (fetch : String → Option ITeamData) (st : ClientState) (d : IChannelData)
      (tid : String) (team : Team), channelTeamId d = some tid →
      getEntry st.teams tid = some team →
      team.id ∈ st.startup →
      ∃ st' : ClientState, Client.addChannel fetch true st d = .ok (st', []) ∧
        ∃ team', getEntry st'.teams tid = some team' ∧
          (getEntry team'.channels d.id).isSome = true) := by
  refine ⟨?_, ?_, ?_⟩
  · intro st d h
    unfold Client.addTeam
    cases hg : getEntry st.teams d.id with
    | some team => simp [hg, Team.patch_id, h, getEntry_setEntry_self]
    | none => simp [hg, Team.new_id, h, getEntry_setEntry_self]
  · intro fetch st d team hg h
    refine ⟨(upsertUserInTeam st team d).1, ?_, upsertUserInTeam_stores st team d⟩
    unfold Client.addUser
    simp only [hg]
    rw [← upsertUserInTeam_startup st team d h]
  · intro fetch st d tid team hc hg h
    refine ⟨(upsertChannelInTeam st team tid d).1, ?_, upsertChannelInTeam_stores st team tid d⟩
    unfold Client.addChannel
    simp only [hc, hg]
    rw [← upsertChannelInTeam_startup st team tid d h]

/-- Concrete team payload used by the C1 witness. -/
def c1TeamData : ITeamData :=
  { id := "T1", fakeId := none, name := some "Acme", domain := none, icon := none }

/-- Concrete state with team "T1" in startup, used by the C1 witness. -/
def c1State : ClientState :=
  { tokens := [], teams := [], webMap := [], rtmMap := [], startup := ["T1"] }

/-- Concrete state holding team "T1" (still in startup), used by the C1
witness. -/
def c1UserState : ClientState :=
  { tokens := [], teams := [("T1", Team.new [] c1TeamData)], webMap := [],
    rtmMap := [], startup := ["T1"] }

/-- Concrete user payload used by the C1 witness. -/
def c1UserData : IUserData :=
  { id := some "U1", bot_id := none, team_id := "T1", name := none, fullBot := false }

/-- Witness for C1: a concrete state with team "T1" in startup; upserting the
team and a user of "T1" emits nothing and stores the entities. -/
theorem c1_startup_suppression_witness :
    ((Client.addTeam c1State c1TeamData).2 = [] ∧
      (getEntry (Client.addTeam c1State c1TeamData).1.teams "T1").isSome = true) ∧
    (∃ st' : ClientState,
      Client.addUser (fun _ => none) true c1UserState c1UserData = .ok (st', []) ∧
      ∃ team', getEntry st'.teams "T1" = some team' ∧
        (getEntry team'.users (userKey c1UserData)).isSome = true) := by
  constructor
  · exact c1_startup_suppression.1 c1State c1TeamData (by decide)
  · exact c1_startup_suppression.2.1 (fun _ => none) c1UserState c1UserData
      (Team.new [] c1TeamData) (by rfl) (by decide)

/-! ## C3 -/

/-- A stored team with a `fakeId`, for the C3 counterexample. -/
def c3Team : Team :=
  { id := "T1", name := "Acme", domain := "", email := none, emailDomain := none,
    icon := none, enterpriseId := none, enterpriseName := none, partialFlag := true,
    fakeId := some "F", users := [], channels := [] }

/-- A patch payload carrying only the id, for C3. -/
def c3Data : ITeamData :=
  { id := "T1", fakeId := none, name := none, domain := none, icon := none }

/-- Counterexample to C3: when the client holds a token for the team's id,
`Team._patch` resets `fakeId` to `null` even though `fakeId` is absent from
the payload, so an absent field does not keep its previous value. -/
theorem c3_counterexample :
    c3Data.fakeId = none ∧ c3Team.fakeId = some "F" ∧
    (Team._patch ["T1"] c3Team c3Data).fakeId = none ∧
    (Team._patch ["T1"] c3Team c3Data).fakeId ≠ c3Team.fakeId := by
  exact ⟨rfl, rfl, rfl, by decide⟩

/-- C3 (amended): `name`, `domain` and `icon` absent from the payload always
keep their previous values; `fakeId` keeps its previous value only when the
client holds no token for the team's id, and is reset to `null` whenever a
token for the patched id exists. -/
theorem c3_patch_presence_gated_amended :
    ∀ (tokens : List String) (t : Team) (d : ITeamData),
      (d.name = none → (Team._patch tokens t d).name = t.name) ∧
      (d.domain = none → (Team._patch tokens t d).domain = t.domain) ∧
      (d.icon = none → (Team._patch tokens t d).icon = t.icon) ∧
      (tokens.contains d.id = false → d.fakeId = none →
        (Team._patch tokens t d).fakeId = t.fakeId) ∧
      (tokens.contains d.id = true → (Team._patch tokens t d).fakeId = none) := by
  intro tokens t d
  refine ⟨?_, ?_, ?_, ?_, ?_⟩ <;>
    (intro h
     try intro h2) <;>
    (unfold Team._patch
     cases hn : d.name <;> cases hd : d.domain <;> cases hi : d.icon <;>
       cases hf : d.fakeId <;>
       (dsimp only []
        repeat' split) <;>
       simp_all)

/-- Witness for C3's amended theorem: the patch `{id:"T1"}` after a team with
name "Acme" keeps `name` (and keeps `fakeId` without a token, resets it with
one). -/
theorem c3_patch_presence_gated_amended_witness :
    (Team._patch [] c3Team c3Data).name = c3Team.name ∧
    (Team._patch [] c3Team c3Data).fakeId = c3Team.fakeId ∧
    (Team._patch ["T1"] c3Team c3Data).fakeId = none := by
  refine ⟨(c3_patch_presence_gated_amended [] c3Team c3Data).1 rfl,
    (c3_patch_presence_gated_amended [] c3Team c3Data).2.2.2.1 (by decide) rfl,
    (c3_patch_presence_gated_amended ["T1"] c3Team c3Data).2.2.2.2 (by decide)⟩

/-! ## C2 -/

/-- A registered team "T1" outside startup, for the C2 counterexample. -/
def c2Team : Team :=
  Team.new []
    { id := "T1", fakeId := none, name := some "Acme", domain := none, icon := none }

/-- State with team "T1" resolvable and startup empty, for C2. -/
def c2State : ClientState :=
  { tokens := [], teams := [("T1", c2Team)], webMap := [], rtmMap := [], startup := [] }

/-- A new full-bot user payload for team "T1", for C2. -/
def c2BotUser : IUserData :=
  { id := some "U1", bot_id := none, team_id := "T1", name := none, fullBot := true }

/-- Counterexample to C2: with the owning team resolvable, its startup flag
not set and the (id, teamId) pair absent, upserting a full-bot user fires zero
events, although the claim allows zero only for an unresolvable team. -/
theorem c2_counterexample :
    (getEntry c2State.teams "T1").isSome = true ∧ c2State.startup = [] ∧
    getEntry c2Team.users "U1" = none ∧
    Except.map Prod.snd (Client.addUser (fun _ => none) true c2State c2BotUser) =
      .ok [] :=
  ⟨rfl, rfl, rfl, rfl⟩

/-- C2 (amended): outside startup with a resolvable team, `addTeam` and
`addChannel` fire exactly the one corresponding event — `addTeam` /
`addChannel` of the new entity when the (id, teamId) pair was absent,
`changeTeam` / `changeChannel` carrying the old snapshot and the patched
entity when it was present — never both, never zero; `addUser` fires exactly
the one corresponding event when the new (resp. patched) user is not a full
bot, and zero events when it is. -/
theorem c2_exactly_one_event_amended :
    (∀ (st : ClientState) (d : ITeamData), getEntry st.teams d.id = none →
      d.id ∉ st.startup →
      (Client.addTeam st d).2 =
        [Event.addTeam (Team.new (st.tokens.map Prod.fst) d)]) ∧
    (∀ (st : ClientState) (d : ITeamData) (team : Team),
      getEntry st.teams d.id = some team → d.id ∉ st.startup →
      (Client.addTeam st d).2 =
        [Event.changeTeam team (Team._patch (st.tokens.map Prod.fst) team d)]) ∧
    (∀ (fetch : String → Option ITeamData) (st : ClientState) (d : IChannelData)
      (tid : String) (team : Team), channelTeamId d = some tid →
      getEntry st.teams tid = some team → team.id ∉ st.startup →
      getEntry team.channels d.id = none →
      Except.map Prod.snd (Client.addChannel fetch true st d) =
        .ok [Event.addChannel (Channel.new d)]) ∧
    (∀ (fetch : String → Option ITeamData) (st : ClientState) (d : IChannelData)
      (tid : String) (team : Team) (chan : Channel), channelTeamId d = some tid →
      getEntry st.teams tid = some team → team.id ∉ st.startup →
      getEntry team.channels d.id = some chan →
      Except.map Prod.snd (Client.addChannel fetch true st d) =
        .ok [Event.changeChannel chan (Channel._patch chan d)]) ∧
    (∀ (fetch : String → Option ITeamData) (st : ClientState) (d : IUserData)
      (team : Team), getEntry st.teams d.team_id = some team →
      team.id ∉ st.startup →
      (getEntry team.users (userKey d) = none → (User.new d).fullBot = false →
        Except.map Prod.snd (Client.addUser fetch true st d) =
          .ok [Event.addUser (User.new d)]) ∧
      (getEntry team.users (userKey d) = none → (User.new d).fullBot = true →
        Except.map Prod.snd (Client.addUser fetch true st d) = .ok []) ∧
      (∀ user, getEntry team.users (userKey d) = some user →
        (User._patch user d).fullBot = false →
        Except.map Prod.snd (Client.addUser fetch true st d) =
          .ok [Event.changeUser user (User._patch user d)]) ∧
      (∀ user, getEntry team.users (userKey d) = some user →
        (User._patch user d).fullBot = true →
        Except.map Prod.snd (Client.addUser fetch true st d) = .ok [])) := by
  refine ⟨?_, ?_, ?_, ?_, ?_⟩
  · intro st d hg h
    unfold Client.addTeam
    rw [hg]
    dsimp only []
    rw [Team.new_id, if_neg (by simpa using h)]
  · intro st d team hg h
    unfold Client.addTeam
    rw [hg]
    dsimp only []
    rw [Team.patch_id, if_neg (by simpa using h)]
  · intro fetch st d tid team hc hg h hch
    unfold Client.addChannel
    rw [hc]
    dsimp only []
    rw [hg]
    dsimp only []
    unfold upsertChannelInTeam
    dsimp only []
    rw [hch]
    dsimp only []
    rw [if_neg (by simpa using h)]
    rfl
  · intro fetch st d tid team chan hc hg h hch
    unfold Client.addChannel
    rw [hc]
    dsimp only []
    rw [hg]
    dsimp only []
    unfold upsertChannelInTeam
    dsimp only []
    rw [hch]
    dsimp only []
    rw [if_neg (by simpa using h)]
    rfl
  · intro fetch st d team hg h
    have hcb : st.startup.contains team.id = false := by simpa using h
    refine ⟨?_, ?_, ?_, ?_⟩
    · intro hu hfb
      unfold Client.addUser
      simp only [hg]
      unfold upsertUserInTeam
      dsimp only []
      rw [hu]
      simp [Except.map, hcb, hfb, h]
    · intro hu hfb
      unfold Client.addUser
      simp only [hg]
      unfold upsertUserInTeam
      dsimp only []
      rw [hu]
      simp [Except.map, hcb, hfb, h]
    · intro user hu hfb
      unfold Client.addUser
      simp only [hg]
      unfold upsertUserInTeam
      dsimp only []
      rw [hu]
      simp [Except.map, hcb, hfb, h]
    · intro user hu hfb
      unfold Client.addUser
      simp only [hg]
      unfold upsertUserInTeam
      dsimp only []
      rw [hu]
      simp [Except.map, hcb, hfb, h]

/-- A non-bot user payload for team "T1", for the C2 witness. -/
def c2HumanUser : IUserData :=
  { id := some "U2", bot_id := none, team_id := "T1", name := some "Uli",
    fullBot := false }

/-- A team payload with a fresh id, for the C2 witness (add path). -/
def c2NewTeamData : ITeamData :=
  { id := "T2", fakeId := none, name := some "Beta", domain := none, icon := none }

/-- A patch payload for the stored team "T1", for the C2 witness. -/
def c2PatchTeamData : ITeamData :=
  { id := "T1", fakeId := none, name := none, domain := none, icon := none }

/-- A channel payload of team "T1", for the C2 witness. -/
def c2Chan : IChannelData :=
  { id := "C1", team_id := some "T1", shared_team_ids := none,
    name := some "general" }

/-- Team "T1" with the channel "C1" already stored, for the C2 witness
(change path). -/
def c2TeamWithChan : Team :=
  { c2Team with channels := [("C1", Channel.new c2Chan)] }

/-- State holding `c2TeamWithChan`, for the C2 witness. -/
def c2StateWithChan : ClientState :=
  { tokens := [], teams := [("T1", c2TeamWithChan)], webMap := [], rtmMap := [],
    startup := [] }

/-- Witness for C2's amended theorem at concrete inputs: an absent team id
fires exactly one `addTeam`, a stored team exactly one `changeTeam`, an
absent channel exactly one `addChannel`, a stored channel exactly one
`changeChannel`, a new human user exactly one `addUser`, and a new full-bot
user zero events. -/
theorem c2_exactly_one_event_amended_witness :
    (Client.addTeam c2State c2NewTeamData).2 =
      [Event.addTeam (Team.new [] c2NewTeamData)] ∧
    (Client.addTeam c2State c2PatchTeamData).2 =
      [Event.changeTeam c2Team (Team._patch [] c2Team c2PatchTeamData)] ∧
    Except.map Prod.snd (Client.addChannel (fun _ => none) true c2State c2Chan) =
      .ok [Event.addChannel (Channel.new c2Chan)] ∧
    Except.map Prod.snd
        (Client.addChannel (fun _ => none) true c2StateWithChan c2Chan) =
      .ok [Event.changeChannel (Channel.new c2Chan)
        (Channel._patch (Channel.new c2Chan) c2Chan)] ∧
    Except.map Prod.snd (Client.addUser (fun _ => none) true c2State c2HumanUser) =
      .ok [Event.addUser (User.new c2HumanUser)] ∧
    Except.map Prod.snd (Client.addUser (fun _ => none) true c2State c2BotUser) =
      .ok [] := by
  refine ⟨?_, ?_, ?_, ?_, ?_, ?_⟩
  · exact c2_exactly_one_event_amended.1 c2State c2NewTeamData rfl (by decide)
  · exact c2_exactly_one_event_amended.2.1 c2State c2PatchTeamData c2Team rfl
      (by decide)
  · exact c2_exactly_one_event_amended.2.2.1 (fun _ => none) c2State c2Chan "T1"
      c2Team rfl rfl (by decide) rfl
  · exact c2_exactly_one_event_amended.2.2.2.1 (fun _ => none) c2StateWithChan
      c2Chan "T1" c2TeamWithChan (Channel.new c2Chan) rfl rfl (by decide) rfl
  · exact (c2_exactly_one_event_amended.2.2.2.2 (fun _ => none) c2State
      c2HumanUser c2Team rfl (by decide)).1 rfl rfl
  · exact (c2_exactly_one_event_amended.2.2.2.2 (fun _ => none) c2State
      c2BotUser c2Team rfl (by decide)).2.1 rfl rfl

/-! ## C4 -/

/-- A registered team "T9" outside startup, for the C4 counterexample. -/
def c4Team : Team :=
  Team.new []
    { id := "T9", fakeId := none, name := some "Nine", domain := none, icon := none }

/-- State with team "T9" resolvable and startup empty, for C4. -/
def c4State : ClientState :=
  { tokens := [], teams := [("T9", c4Team)], webMap := [], rtmMap := [], startup := [] }

/-- A new full-bot user payload for team "T9", for C4. -/
def c4BotUser : IUserData :=
  { id := none, bot_id := some "B1", team_id := "T9", name := none, fullBot := true }

/-- Counterexample to C4: upserting a new full-bot user outside startup emits
no `addUser` event (the emitted event list is empty), because the add path
checks `!newUser.fullBot` just like the change path (client.ts line 525). -/
theorem c4_counterexample :
    (getEntry c4State.teams "T9").isSome = true ∧ c4State.startup = [] ∧
    getEntry c4Team.users (userKey c4BotUser) = none ∧ c4BotUser.fullBot = true ∧
    Except.map Prod.snd (Client.addUser (fun _ => none) true c4State c4BotUser) =
      .ok [] :=
  ⟨rfl, rfl, rfl, rfl, rfl⟩

/-- C4 (amended): full-bot suppression applies to both paths — an upsert of an
existing user whose patched state is full-bot emits no `changeUser`, and an
upsert of a new full-bot user emits no `addUser` either (zero events in both
cases, whatever the startup flag). -/
theorem c4_fullbot_suppression_amended :
    ∀ (fetch : String → Option ITeamData) (st : ClientState) (d : IUserData)
      (team : Team), getEntry st.teams d.team_id = some team →
      ((∀ user, getEntry team.users (userKey d) = some user →
        (User._patch user d).fullBot = true →
        Except.map Prod.snd (Client.addUser fetch true st d) = .ok []) ∧
       (getEntry team.users (userKey d) = none → (User.new d).fullBot = true →
        Except.map Prod.snd (Client.addUser fetch true st d) = .ok [])) := by
  intro fetch st d team hg
  constructor
  · intro user hu hfb
    unfold Client.addUser
    simp only [hg]
    unfold upsertUserInTeam
    dsimp only []
    rw [hu]
    simp [Except.map, hfb]
  · intro hu hfb
    unfold Client.addUser
    simp only [hg]
    unfold upsertUserInTeam
    dsimp only []
    rw [hu]
    simp [Except.map, hfb]

/-- State with team "T9" holding the stored full-bot user, for the C4
witness. -/
def c4StateWithBot : ClientState :=
  { tokens := [],
    teams := [("T9", { c4Team with users := [("B1", User.new c4BotUser)] })],
    webMap := [], rtmMap := [], startup := [] }

/-- Witness for C4's amended theorem: both the change path (stored full bot
re-upserted) and the add path (new full bot) emit zero events. -/
theorem c4_fullbot_suppression_amended_witness :
    Except.map Prod.snd (Client.addUser (fun _ => none) true c4StateWithBot c4BotUser) =
      .ok [] ∧
    Except.map Prod.snd (Client.addUser (fun _ => none) true c4State c4BotUser) =
      .ok [] := by
  constructor
  · exact (c4_fullbot_suppression_amended (fun _ => none) c4StateWithBot c4BotUser
      { c4Team with users := [("B1", User.new c4BotUser)] } rfl).1
      (User.new c4BotUser) rfl rfl
  · exact (c4_fullbot_suppression_amended (fun _ => none) c4State c4BotUser
      c4Team rfl).2 rfl rfl

/-! ## C5 -/

/-- Whether an event is message-shaped (`message`, `messageChanged`,
`messageDeleted`). -/
def isMessageEvent : Event → Bool
  | Event.message _ => true
  | Event.messageChanged _ _ => true
  | Event.messageDeleted _ => true
  | _ => false

/-- The message-shaped events of an emitted event list. -/
def messageEvents (l : List Event) : List Event :=
  l.filter isMessageEvent

theorem messageEvents_upsertUserInTeam (st : ClientState) (team : Team)
    (d : IUserData) : messageEvents (upsertUserInTeam st team d).2 = [] := by
  unfold upsertUserInTeam
  dsimp only []
  cases hu : getEntry team.users (userKey d) <;>
    (dsimp only []; split <;> rfl)

theorem messageEvents_addTeam (st : ClientState) (d : ITeamData) :
    messageEvents (Client.addTeam st d).2 = [] := by
  unfold Client.addTeam
  cases hg : getEntry st.teams d.id <;>
    (dsimp only []; split <;> rfl)

/-- `Client.addUser` never emits a message-shaped event. -/
theorem messageEvents_addUser (fetch : String → Option ITeamData) (ct : Bool)
    (st : ClientState) (d : IUserData) (st' : ClientState) (evs : List Event)
    (h : Client.addUser fetch ct st d = .ok (st', evs)) :
    messageEvents evs = [] := by
  unfold Client.addUser at h
  cases hg : getEntry st.teams d.team_id with
  | some team =>
    rw [hg] at h
    dsimp only [] at h
    simp only [Except.ok.injEq] at h
    have hm := messageEvents_upsertUserInTeam st team d
    rw [h] at hm
    simpa using hm
  | none =>
    rw [hg] at h
    dsimp only [] at h
    cases ct with
    | false =>
      simp only [Bool.false_eq_true, if_false, Except.ok.injEq, Prod.mk.injEq] at h
      rw [← h.2]
      rfl
    | true =>
      simp only [if_true] at h
      cases hw : st.webMap.contains d.team_id with
      | false =>
        rw [hw] at h
        simp at h
      | true =>
        rw [hw] at h
        simp only [if_true] at h
        cases hf : fetch d.team_id with
        | none =>
          rw [hf] at h
          dsimp only [] at h
          simp only [Except.ok.injEq, Prod.mk.injEq] at h
          rw [← h.2]
          rfl
        | some td =>
          rw [hf] at h
          dsimp only [] at h
          cases hg1 : getEntry (Client.addTeam st td).1.teams d.team_id with
          | some team =>
            rw [hg1] at h
            dsimp only [] at h
            simp only [Except.ok.injEq, Prod.mk.injEq] at h
            rw [← h.2]
            unfold messageEvents
            rw [List.filter_append]
            have h1 := messageEvents_addTeam st td
            have h2 := messageEvents_upsertUserInTeam (Client.addTeam st td).1 team d
            unfold messageEvents at h1 h2
            rw [h1, h2]
            rfl
          | none =>
            rw [hg1] at h
            dsimp only [] at h
            simp only [Except.ok.injEq, Prod.mk.injEq] at h
            rw [← h.2]
            exact messageEvents_addTeam st td

/-- C5: message-shaped event classification.  Suppressed subtypes emit
nothing at all; `message_changed` yields exactly one `messageChanged` built
from the embedded `previous_message` and `message` payloads; `message_deleted`
yields exactly one `messageDeleted` built from `previous_message`; any other
subtype yields exactly one plain `message` built from the event itself.  When
the event carries no (truthy) `bot_id`, the emitted list consists of its
message-shaped events only. -/
theorem c5_message_classification :
    (∀ (fetch : String → Option ITeamData) (st : ClientState)
      (e : IMessageEventData),
      (e.subtype = some "channel_join" ∨ e.subtype = some "channel_name" ∨
        e.subtype = some "message_replied") →
      Client.handleMessageEvent fetch st e = .ok (st, [])) ∧
    (∀ (fetch : String → Option ITeamData) (st : ClientState)
      (e : IMessageEventData) (st' : ClientState) (evs : List Event),
      e.subtype = some "message_changed" →
      Client.handleMessageEvent fetch st e = .ok (st', evs) →
      ∃ channelId userId, messageEvents evs =
        [Event.messageChanged
          (Message.new e.previous_message e.team_id channelId userId)
          (Message.new e.message e.team_id channelId userId)]) ∧
    (∀ (fetch : String → Option ITeamData) (st : ClientState)
      (e : IMessageEventData) (st' : ClientState) (evs : List Event),
      e.subtype = some "message_deleted" →
      Client.handleMessageEvent fetch st e = .ok (st', evs) →
      ∃ channelId userId, messageEvents evs =
        [Event.messageDeleted
          (Message.new e.previous_message e.team_id channelId userId)]) ∧
    (∀ (fetch : String → Option ITeamData) (st : ClientState)
      (e : IMessageEventData) (st' : ClientState) (evs : List Event),
      e.subtype ≠ some "channel_join" → e.subtype ≠ some "channel_name" →
      e.subtype ≠ some "message_replied" → e.subtype ≠ some "message_changed" →
      e.subtype ≠ some "message_deleted" →
      Client.handleMessageEvent fetch st e = .ok (st', evs) →
      ∃ channelId userId, messageEvents evs =
        [Event.message
          (Message.new (some (eventPayload e)) e.team_id channelId userId)]) ∧
    (∀ (fetch : String → Option ITeamData) (st : ClientState)
      (e : IMessageEventData) (st' : ClientState) (evs : List Event),
      strTruthy e.bot_id = false →
      Client.handleMessageEvent fetch st e = .ok (st', evs) →
      evs = messageEvents evs) := by
  refine ⟨?_, ?_, ?_, ?_, ?_⟩
  · intro fetch st e hs
    rcases hs with hs | hs | hs <;> simp [Client.handleMessageEvent, hs]
  · intro fetch st e st' evs hs h
    unfold Client.handleMessageEvent at h
    rw [if_neg (by simp [hs])] at h
    cases ha : (if strTruthy e.bot_id then
        Client.addUser fetch true st (userDataOfEvent e) else .ok (st, [])) with
    | error err =>
      rw [ha] at h
      simp at h
    | ok p =>
      rw [ha] at h
      obtain ⟨st1, evs1⟩ := p
      cases hc : (if strTruthy e.channel then Except.ok e.channel
          else match e.item with
               | some it => Except.ok it.channel
               | none => Except.error "TypeError: data.item is undefined") with
      | error err =>
        rw [hc] at h
        simp at h
      | ok channelId =>
        rw [hc] at h
        dsimp only [] at h
        rw [if_pos (by simp [hs])] at h
        simp only [Except.ok.injEq, Prod.mk.injEq] at h
        refine ⟨channelId,
          refineUserId (refineUserId (jsOr e.user e.bot_id) e.message)
            e.previous_message, ?_⟩
        rw [← h.2]
        unfold messageEvents
        rw [List.filter_append]
        have h1 : List.filter isMessageEvent evs1 = [] := by
          by_cases hb : strTruthy e.bot_id
          · rw [hb] at ha
            simp only [if_true] at ha
            exact messageEvents_addUser fetch true st (userDataOfEvent e) st1 evs1 ha
          · rw [if_neg hb] at ha
            simp only [Except.ok.injEq, Prod.mk.injEq] at ha
            rw [← ha.2]
            rfl
        rw [h1]
        rfl
  · intro fetch st e st' evs hs h
    unfold Client.handleMessageEvent at h
    rw [if_neg (by simp [hs])] at h
    cases ha : (if strTruthy e.bot_id then
        Client.addUser fetch true st (userDataOfEvent e) else .ok (st, [])) with
    | error err =>
      rw [ha] at h
      simp at h
    | ok p =>
      rw [ha] at h
      obtain ⟨st1, evs1⟩ := p
      cases hc : (if strTruthy e.channel then Except.ok e.channel
          else match e.item with
               | some it => Except.ok it.channel
               | none => Except.error "TypeError: data.item is undefined") with
      | error err =>
        rw [hc] at h
        simp at h
      | ok channelId =>
        rw [hc] at h
        dsimp only [] at h
        rw [if_neg (by simp [hs]), if_pos (by simp [hs])] at h
        simp only [Except.ok.injEq, Prod.mk.injEq] at h
        refine ⟨channelId,
          refineUserId (refineUserId (jsOr e.user e.bot_id) e.message)
            e.previous_message, ?_⟩
        rw [← h.2]
        unfold messageEvents
        rw [List.filter_append]
        have h1 : List.filter isMessageEvent evs1 = [] := by
          by_cases hb : strTruthy e.bot_id
          · rw [hb] at ha
            simp only [if_true] at ha
            exact messageEvents_addUser fetch true st (userDataOfEvent e) st1 evs1 ha
          · rw [if_neg hb] at ha
            simp only [Except.ok.injEq, Prod.mk.injEq] at ha
            rw [← ha.2]
            rfl
        rw [h1]
        rfl
  · intro fetch st e st' evs h1 h2 h3 h4 h5 h
    unfold Client.handleMessageEvent at h
    rw [if_neg (by simp [h1, h2, h3])] at h
    cases ha : (if strTruthy e.bot_id then
        Client.addUser fetch true st (userDataOfEvent e) else .ok (st, [])) with
    | error err =>
      rw [ha] at h
      simp at h
    | ok p =>
      rw [ha] at h
      obtain ⟨st1, evs1⟩ := p
      cases hc : (if strTruthy e.channel then Except.ok e.channel
          else match e.item with
               | some it => Except.ok it.channel
               | none => Except.error "TypeError: data.item is undefined") with
      | error err =>
        rw [hc] at h
        simp at h
      | ok channelId =>
        rw [hc] at h
        dsimp only [] at h
        rw [if_neg (by simp [h4]), if_neg (by simp [h5])] at h
        simp only [Except.ok.injEq, Prod.mk.injEq] at h
        refine ⟨channelId,
          refineUserId (refineUserId (jsOr e.user e.bot_id) e.message)
            e.previous_message, ?_⟩
        rw [← h.2]
        unfold messageEvents
        rw [List.filter_append]
        have hm1 : List.filter isMessageEvent evs1 = [] := by
          by_cases hb : strTruthy e.bot_id
          · rw [hb] at ha
            simp only [if_true] at ha
            exact messageEvents_addUser fetch true st (userDataOfEvent e) st1 evs1 ha
          · rw [if_neg hb] at ha
            simp only [Except.ok.injEq, Prod.mk.injEq] at ha
            rw [← ha.2]
            rfl
        rw [hm1]
        rfl
  · intro fetch st e st' evs hb h
    unfold Client.handleMessageEvent at h
    by_cases hsup : ([some "channel_join", some "channel_name",
        some "message_replied"].contains e.subtype) = true
    · rw [if_pos hsup] at h
      simp only [Except.ok.injEq, Prod.mk.injEq] at h
      rw [← h.2]
      rfl
    · rw [if_neg hsup] at h
      rw [hb] at h
      simp only [Bool.false_eq_true, if_false] at h
      cases hc : (if strTruthy e.channel then Except.ok e.channel
          else match e.item with
               | some it => Except.ok it.channel
               | none => Except.error "TypeError: data.item is undefined") with
      | error err =>
        rw [hc] at h
        simp at h
      | ok channelId =>
        rw [hc] at h
        dsimp only [] at h
        split at h
        · simp only [Except.ok.injEq, Prod.mk.injEq] at h
          rw [← h.2]
          rfl
        · split at h
          · simp only [Except.ok.injEq, Prod.mk.injEq] at h
            rw [← h.2]
            rfl
          · simp only [Except.ok.injEq, Prod.mk.injEq] at h
            rw [← h.2]
            rfl

/-! ## C6 -/

/-- C6: on a goodbye or disconnected transport signal the session is torn
down and exactly one restart attempt is scheduled after the fixed 15000 ms
pause; if that restart attempt fails, one `disconnected` domain event is
emitted and no further restart timer is scheduled. -/
theorem c6_reconnect_single_retry :
    ∀ (s : RtmSession), s.pendingRestarts = [] →
      (onGoodbye s = reconnect s ∧ onDisconnectedSignal s = reconnect s) ∧
      (reconnect s).connected = false ∧
      (reconnect s).pendingRestarts = [RECONNECT_PAUSE] ∧
      RECONNECT_PAUSE = 15000 ∧
      fireRestart (reconnect s) false =
        ({ connected := false, pendingRestarts := [] }, [Event.disconnected]) := by
  intro s h
  refine ⟨⟨rfl, rfl⟩, rfl, ?_, rfl, ?_⟩
  · simp [reconnect, h]
  · simp [reconnect, fireRestart, h]

/-- Witness for C6, at a concrete connected session with no pending timer. -/
theorem c6_reconnect_single_retry_witness :
    ((onGoodbye { connected := true, pendingRestarts := [] } =
        reconnect { connected := true, pendingRestarts := [] } ∧
      onDisconnectedSignal { connected := true, pendingRestarts := [] } =
        reconnect { connected := true, pendingRestarts := [] }) ∧
      (reconnect { connected := true, pendingRestarts := [] }).connected = false ∧
      (reconnect { connected := true, pendingRestarts := [] }).pendingRestarts =
        [RECONNECT_PAUSE] ∧
      RECONNECT_PAUSE = 15000 ∧
      fireRestart (reconnect { connected := true, pendingRestarts := [] }) false =
        ({ connected := false, pendingRestarts := [] }, [Event.disconnected])) :=
  c6_reconnect_single_retry { connected := true, pendingRestarts := [] } rfl

/-! ## C7 -/

/-- A connected session with one pending reconnect timer, for C7. -/
def c7Session : RtmSession :=
  { connected := true, pendingRestarts := [RECONNECT_PAUSE] }

/-- Supervisor state with one team session and a pending reconnect timer,
for C7. -/
def c7State : SupervisorState :=
  { rtmMap := [("T1", c7Session)], eventsRunning := true }

/-- Counterexample to C7: after a global `disconnect()`, the pending reconnect
timer of team "T1" is still scheduled (nothing in client.ts tracks or cancels
`setTimeout` handles), and when it fires with a successful `rtm.start()` the
session is re-established post-shutdown. -/
theorem c7_counterexample :
    getEntry (Client.disconnect c7State).rtmMap "T1" =
      some { connected := false, pendingRestarts := [RECONNECT_PAUSE] } ∧
    (fireSessionRestart (Client.disconnect c7State) "T1" true).1.rtmMap =
      [("T1", { connected := true, pendingRestarts := [] })] :=
  ⟨rfl, rfl⟩

/-- C7 (amended): a global `disconnect()` tears down every active per-team
session before returning and stops the events adapter, but pending reconnect
timers are neither tracked nor cancelled: every session's pending-timer list
is left exactly as it was. -/
theorem c7_disconnect_amended :
    ∀ (c : SupervisorState),
      (∀ p ∈ (Client.disconnect c).rtmMap, p.2.connected = false) ∧
      (Client.disconnect c).rtmMap.map (fun p => (p.1, p.2.pendingRestarts)) =
        c.rtmMap.map (fun p => (p.1, p.2.pendingRestarts)) ∧
      (Client.disconnect c).eventsRunning = false := by
  intro c
  refine ⟨?_, ?_, rfl⟩
  · intro p hp
    simp only [Client.disconnect, List.mem_map] at hp
    obtain ⟨q, hq, rfl⟩ := hp
    rfl
  · show ((c.rtmMap.map _).map _) = _
    rw [List.map_map]
    rfl

/-- Witness for C7's amended theorem at the concrete one-team state. -/
theorem c7_disconnect_amended_witness :
    (({ connected := false, pendingRestarts := [RECONNECT_PAUSE] } : RtmSession).connected
      = false) ∧
    (Client.disconnect c7State).rtmMap.map (fun p => (p.1, p.2.pendingRestarts)) =
      c7State.rtmMap.map (fun p => (p.1, p.2.pendingRestarts)) := by
  refine ⟨?_, (c7_disconnect_amended c7State).2.1⟩
  exact (c7_disconnect_amended c7State).1
    ("T1", { connected := false, pendingRestarts := [RECONNECT_PAUSE] })
    (by simp [Client.disconnect, c7State, c7Session])

/-! ## C8 -/

theorem loadChannels_cons_more (fetch : String → Option ITeamData)
    (selfId : String) (st : ClientState) (r : IConversationsListResponse)
    (rest : List IConversationsListResponse) (c : List IChannelData)
    (hok : r.ok = true) (hc : r.channels = some c)
    (hcur : strTruthy r.next_cursor = true) :
    Team.loadChannels fetch selfId st (r :: rest) =
      match upsertChannelPage fetch selfId st c with
      | .error e => .error e
      | .ok (st1, evs1) =>
        match Team.loadChannels fetch selfId st1 rest with
        | .error e => .error e
        | .ok (st2, evs2, items2, n2) =>
          .ok (st2, evs1 ++ evs2, c ++ items2, n2 + 1) := by
  conv_lhs => rw [Team.loadChannels]
  rw [hok, hc]
  dsimp only []
  rw [hcur]
  simp

theorem loadChannels_cons_last (fetch : String → Option ITeamData)
    (selfId : String) (st : ClientState) (r : IConversationsListResponse)
    (rest : List IConversationsListResponse) (c : List IChannelData)
    (hok : r.ok = true) (hc : r.channels = some c)
    (hcur : strTruthy r.next_cursor = false) :
    Team.loadChannels fetch selfId st (r :: rest) =
      match upsertChannelPage fetch selfId st c with
      | .error e => .error e
      | .ok (st1, evs1) => .ok (st1, evs1, c, 1) := by
  conv_lhs => rw [Team.loadChannels]
  rw [hok, hc]
  dsimp only []
  rw [hcur]
  simp

theorem loadUsers_cons_more (fetch : String → Option ITeamData)
    (st : ClientState) (r : IUsersListResponse) (rest : List IUsersListResponse)
    (c : List IUserData) (hok : r.ok = true) (hc : r.members = some c)
    (hcur : strTruthy r.next_cursor = true) :
    Team.loadUsers fetch st (r :: rest) =
      match upsertUserPage fetch st c with
      | .error e => .error e
      | .ok (st1, evs1) =>
        match Team.loadUsers fetch st1 rest with
        | .error e => .error e
        | .ok (st2, evs2, items2, n2) =>
          .ok (st2, evs1 ++ evs2, c ++ items2, n2 + 1) := by
  conv_lhs => rw [Team.loadUsers]
  rw [hok, hc]
  dsimp only []
  rw [hcur]
  simp

theorem loadUsers_cons_last (fetch : String → Option ITeamData)
    (st : ClientState) (r : IUsersListResponse) (rest : List IUsersListResponse)
    (c : List IUserData) (hok : r.ok = true) (hc : r.members = some c)
    (hcur : strTruthy r.next_cursor = false) :
    Team.loadUsers fetch st (r :: rest) =
      match upsertUserPage fetch st c with
      | .error e => .error e
      | .ok (st1, evs1) => .ok (st1, evs1, c, 1) := by
  conv_lhs => rw [Team.loadUsers]
  rw [hok, hc]
  dsimp only []
  rw [hcur]
  simp

/-- C8: both pagination loops of `Team.load` drain fully: with stubbed
responses whose cursors run "a" → "b" → "", exactly 3 list calls are issued
and the items of all three pages are aggregated (each page being upserted in
order before the next call). -/
theorem c8_pagination_drain :
    (∀ (fetch : String → Option ITeamData) (selfId : String) (st : ClientState)
      (r1 r2 r3 : IConversationsListResponse) (c1 c2 c3 : List IChannelData)
      (st' : ClientState) (evs : List Event) (items : List IChannelData) (n : Nat),
      r1.ok = true → r1.channels = some c1 → r1.next_cursor = some "a" →
      r2.ok = true → r2.channels = some c2 → r2.next_cursor = some "b" →
      r3.ok = true → r3.channels = some c3 → r3.next_cursor = some "" →
      Team.loadChannels fetch selfId st [r1, r2, r3] = .ok (st', evs, items, n) →
      n = 3 ∧ items = c1 ++ c2 ++ c3) ∧
    (∀ (fetch : String → Option ITeamData) (st : ClientState)
      (r1 r2 r3 : IUsersListResponse) (c1 c2 c3 : List IUserData)
      (st' : ClientState) (evs : List Event) (items : List IUserData) (n : Nat),
      r1.ok = true → r1.members = some c1 → r1.next_cursor = some "a" →
      r2.ok = true → r2.members = some c2 → r2.next_cursor = some "b" →
      r3.ok = true → r3.members = some c3 → r3.next_cursor = some "" →
      Team.loadUsers fetch st [r1, r2, r3] = .ok (st', evs, items, n) →
      n = 3 ∧ items = c1 ++ c2 ++ c3) := by
  constructor
  · intro fetch selfId st r1 r2 r3 c1 c2 c3 st' evs items n
      h1 hc1 hn1 h2 hc2 hn2 h3 hc3 hn3 h
    rw [loadChannels_cons_more fetch selfId st r1 [r2, r3] c1 h1 hc1
      (by rw [hn1]; rfl)] at h
    cases hp1 : upsertChannelPage fetch selfId st c1 with
    | error e =>
      rw [hp1] at h
      simp at h
    | ok p1 =>
      rw [hp1] at h
      dsimp only [] at h
      obtain ⟨st1, evs1⟩ := p1
      rw [loadChannels_cons_more fetch selfId st1 r2 [r3] c2 h2 hc2
        (by rw [hn2]; rfl)] at h
      cases hp2 : upsertChannelPage fetch selfId st1 c2 with
      | error e =>
        rw [hp2] at h
        simp at h
      | ok p2 =>
        rw [hp2] at h
        dsimp only [] at h
        obtain ⟨st2, evs2⟩ := p2
        rw [loadChannels_cons_last fetch selfId st2 r3 [] c3 h3 hc3
          (by rw [hn3]; rfl)] at h
        cases hp3 : upsertChannelPage fetch selfId st2 c3 with
        | error e =>
          rw [hp3] at h
          simp at h
        | ok p3 =>
          rw [hp3] at h
          dsimp only [] at h
          obtain ⟨st3, evs3⟩ := p3
          simp only [Except.ok.injEq, Prod.mk.injEq] at h
          obtain ⟨-, -, hitems, hn⟩ := h
          refine ⟨by omega, ?_⟩
          rw [← hitems, List.append_assoc]
  · intro fetch st r1 r2 r3 c1 c2 c3 st' evs items n
      h1 hc1 hn1 h2 hc2 hn2 h3 hc3 hn3 h
    rw [loadUsers_cons_more fetch st r1 [r2, r3] c1 h1 hc1 (by rw [hn1]; rfl)] at h
    cases hp1 : upsertUserPage fetch st c1 with
    | error e =>
      rw [hp1] at h
      simp at h
    | ok p1 =>
      rw [hp1] at h
      dsimp only [] at h
      obtain ⟨st1, evs1⟩ := p1
      rw [loadUsers_cons_more fetch st1 r2 [r3] c2 h2 hc2 (by rw [hn2]; rfl)] at h
      cases hp2 : upsertUserPage fetch st1 c2 with
      | error e =>
        rw [hp2] at h
        simp at h
      | ok p2 =>
        rw [hp2] at h
        dsimp only [] at h
        obtain ⟨st2, evs2⟩ := p2
        rw [loadUsers_cons_last fetch st2 r3 [] c3 h3 hc3 (by rw [hn3]; rfl)] at h
        cases hp3 : upsertUserPage fetch st2 c3 with
        | error e =>
          rw [hp3] at h
          simp at h
        | ok p3 =>
          rw [hp3] at h
          dsimp only [] at h
          obtain ⟨st3, evs3⟩ := p3
          simp only [Except.ok.injEq, Prod.mk.injEq] at h
          obtain ⟨-, -, hitems, hn⟩ := h
          refine ⟨by omega, ?_⟩
          rw [← hitems, List.append_assoc]

/-- `Client.addTeam` always leaves the team registered under the payload's
id. -/
theorem addTeam_registers (st : ClientState) (d : ITeamData) :
    (getEntry (Client.addTeam st d).1.teams d.id).isSome = true := by
  unfold Client.addTeam
  cases hg : getEntry st.teams d.id with
  | some team => simp [getEntry_setEntry_self]
  | none => simp [Team.new_id, getEntry_setEntry_self]

/-! ## C9 -/

/-- C9: when an upsert names a team id that is not in the store, with
`autoCreateTeam` false the upsert is silently dropped (no mutation, no event);
with `autoCreateTeam` true and the request API returning team metadata, the
team is registered via `addTeam` and the very same upsert is retried exactly
once with `autoCreateTeam` false (first conjunct: the team is registered;
second conjunct: the auto-create run equals `addTeam` followed by the
`autoCreateTeam = false` retry). -/
theorem c9_autocreate_retry :
    (∀ (fetch : String → Option ITeamData) (st : ClientState) (d : IUserData),
      getEntry st.teams d.team_id = none →
      Client.addUser fetch false st d = .ok (st, [])) ∧
    (∀ (fetch : String → Option ITeamData) (st : ClientState) (d : IUserData)
      (td : ITeamData), getEntry st.teams d.team_id = none →
      st.webMap.contains d.team_id = true → fetch d.team_id = some td →
      (getEntry (Client.addTeam st td).1.teams td.id).isSome = true ∧
      Client.addUser fetch true st d =
        Except.map (fun p => (p.1, (Client.addTeam st td).2 ++ p.2))
          (Client.addUser fetch false (Client.addTeam st td).1 d)) ∧
    (∀ (fetch : String → Option ITeamData) (st : ClientState) (d : IChannelData)
      (tid : String), channelTeamId d = some tid →
      getEntry st.teams tid = none →
      Client.addChannel fetch false st d = .ok (st, [])) ∧
    (∀ (fetch : String → Option ITeamData) (st : ClientState) (d : IChannelData)
      (tid : String) (td : ITeamData), channelTeamId d = some tid →
      getEntry st.teams tid = none →
      st.webMap.contains tid = true → fetch tid = some td →
      (getEntry (Client.addTeam st td).1.teams td.id).isSome = true ∧
      Client.addChannel fetch true st d =
        Except.map (fun p => (p.1, (Client.addTeam st td).2 ++ p.2))
          (Client.addChannel fetch false (Client.addTeam st td).1 d)) := by
  refine ⟨?_, ?_, ?_, ?_⟩
  · intro fetch st d hg
    unfold Client.addUser
    rw [hg]
    rfl
  · intro fetch st d td hg hw hf
    refine ⟨addTeam_registers st td, ?_⟩
    conv_lhs => unfold Client.addUser
    conv_rhs => unfold Client.addUser
    rw [hg, hw, hf]
    dsimp only []
    cases hg1 : getEntry (Client.addTeam st td).1.teams d.team_id with
    | some team => simp [Except.map]
    | none => simp [Except.map]
  · intro fetch st d tid hc hg
    unfold Client.addChannel
    rw [hc]
    dsimp only []
    rw [hg]
    rfl
  · intro fetch st d tid td hc hg hw hf
    refine ⟨addTeam_registers st td, ?_⟩
    conv_lhs => unfold Client.addChannel
    conv_rhs => unfold Client.addChannel
    rw [hc]
    dsimp only []
    rw [hg, hw, hf]
    dsimp only []
    cases hg1 : getEntry (Client.addTeam st td).1.teams tid with
    | some team => simp [Except.map]
    | none => simp [Except.map]

/-- Team metadata returned by the request API for the C9 witness. -/
def c9TeamData : ITeamData :=
  { id := "T1", fakeId := none, name := some "Acme", domain := none, icon := none }

/-- State with no team "T1" but a registered web client for it, for C9. -/
def c9State : ClientState :=
  { tokens := [], teams := [], webMap := ["T1"], rtmMap := [], startup := [] }

/-- User payload naming the unknown team "T1", for C9. -/
def c9User : IUserData :=
  { id := some "U1", bot_id := none, team_id := "T1", name := none, fullBot := false }

/-- The request-API oracle of the C9 witness. -/
def c9Fetch : String → Option ITeamData := fun _ => some c9TeamData

/-- Witness for C9 at concrete inputs: the silent drop with auto-create off,
and the register-then-retry decomposition with auto-create on. -/
theorem c9_autocreate_retry_witness :
    Client.addUser c9Fetch false c9State c9User = .ok (c9State, []) ∧
    ((getEntry (Client.addTeam c9State c9TeamData).1.teams "T1").isSome = true ∧
      Client.addUser c9Fetch true c9State c9User =
        Except.map (fun p => (p.1, (Client.addTeam c9State c9TeamData).2 ++ p.2))
          (Client.addUser c9Fetch false (Client.addTeam c9State c9TeamData).1 c9User)) := by
  refine ⟨c9_autocreate_retry.1 c9Fetch c9State c9User rfl, ?_⟩
  exact c9_autocreate_retry.2.1 c9Fetch c9State c9User c9TeamData rfl rfl rfl

/-! ## C10 -/

/-- C10: a channel payload without a `team_id` and with absent or empty
`shared_team_ids` is dropped by `addChannel` with no state mutation and no
event, regardless of the auto-create flag. -/
theorem c10_channel_without_team_dropped :
    ∀ (fetch : String → Option ITeamData) (createTeam : Bool) (st : ClientState)
      (d : IChannelData), d.team_id = none →
      (d.shared_team_ids = none ∨ d.shared_team_ids = some []) →
      Client.addChannel fetch createTeam st d = .ok (st, []) := by
  intro fetch ct st d ht hs
  unfold Client.addChannel
  have hc : channelTeamId d = none := by
    rcases hs with hs | hs <;> simp [channelTeamId, jsOr, strTruthy, ht, hs]
  rw [hc]

/-- Channel payload with no team reference, for the C10 witness. -/
def c10Chan : IChannelData :=
  { id := "C1", team_id := none, shared_team_ids := some [], name := some "general" }

/-- Witness for C10 at a concrete state and payload (auto-create on). -/
theorem c10_channel_without_team_dropped_witness :
    Client.addChannel (fun _ => some c9TeamData) true c2State c10Chan =
      .ok (c2State, []) :=
  c10_channel_without_team_dropped (fun _ => some c9TeamData) true c2State c10Chan
    rfl (Or.inr rfl)

/-! ## witnesses for C5 and C8 -/

/-- Embedded previous-message payload for the C5 witness. -/
def c5Payload : IMessagePayload :=
  { user := some "U1", bot_id := none, text := "old", ts := "1" }

/-- Embedded new-message payload for the C5 witness. -/
def c5Payload2 : IMessagePayload :=
  { user := some "U1", bot_id := none, text := "new", ts := "2" }

/-- Empty client state for the C5 witness. -/
def c5State : ClientState :=
  { tokens := [], teams := [], webMap := [], rtmMap := [], startup := [] }

/-- A `message_changed` event with embedded payloads, for the C5 witness. -/
def c5Changed : IMessageEventData :=
  { subtype := some "message_changed", user := none, bot_id := none,
    team_id := "T1", channel := some "C1", item := none,
    message := some c5Payload2, previous_message := some c5Payload,
    text := "x", ts := "3", fullBot := false }

/-- The same event with subtype `channel_join`, for the C5 witness. -/
def c5Join : IMessageEventData := { c5Changed with subtype := some "channel_join" }

/-- The same event with subtype `message_deleted`, for the C5 witness. -/
def c5Deleted : IMessageEventData :=
  { c5Changed with subtype := some "message_deleted" }

/-- The same event with no subtype, for the C5 witness. -/
def c5Plain : IMessageEventData := { c5Changed with subtype := none }

/-- Witness for C5 at concrete events: `channel_join` emits nothing;
`message_changed`, `message_deleted` and a plain message each yield exactly
the stated single event built from the respective payloads. -/
theorem c5_message_classification_witness :
    Client.handleMessageEvent (fun _ => none) c5State c5Join = .ok (c5State, []) ∧
    (∃ channelId userId, messageEvents
        [Event.messageChanged (Message.new (some c5Payload) "T1" (some "C1") (some "U1"))
          (Message.new (some c5Payload2) "T1" (some "C1") (some "U1"))] =
      [Event.messageChanged (Message.new (some c5Payload) "T1" channelId userId)
        (Message.new (some c5Payload2) "T1" channelId userId)]) ∧
    (∃ channelId userId, messageEvents
        [Event.messageDeleted (Message.new (some c5Payload) "T1" (some "C1") (some "U1"))] =
      [Event.messageDeleted (Message.new (some c5Payload) "T1" channelId userId)]) ∧
    (∃ channelId userId, messageEvents
        [Event.message (Message.new (some (eventPayload c5Plain)) "T1" (some "C1") (some "U1"))] =
      [Event.message (Message.new (some (eventPayload c5Plain)) "T1" channelId userId)]) ∧
    ([Event.message (Message.new (some (eventPayload c5Plain)) "T1" (some "C1") (some "U1"))] =
      messageEvents
        [Event.message (Message.new (some (eventPayload c5Plain)) "T1" (some "C1") (some "U1"))]) := by
  refine ⟨?_, ?_, ?_, ?_, ?_⟩
  · exact c5_message_classification.1 (fun _ => none) c5State c5Join (Or.inl rfl)
  · exact c5_message_classification.2.1 (fun _ => none) c5State c5Changed c5State
      [Event.messageChanged (Message.new (some c5Payload) "T1" (some "C1") (some "U1"))
        (Message.new (some c5Payload2) "T1" (some "C1") (some "U1"))] rfl rfl
  · exact c5_message_classification.2.2.1 (fun _ => none) c5State c5Deleted c5State
      [Event.messageDeleted (Message.new (some c5Payload) "T1" (some "C1") (some "U1"))]
      rfl rfl
  · exact c5_message_classification.2.2.2.1 (fun _ => none) c5State c5Plain c5State
      [Event.message (Message.new (some (eventPayload c5Plain)) "T1" (some "C1") (some "U1"))]
      (by decide) (by decide) (by decide) (by decide) (by decide) rfl
  · exact c5_message_classification.2.2.2.2 (fun _ => none) c5State c5Plain c5State
      [Event.message (Message.new (some (eventPayload c5Plain)) "T1" (some "C1") (some "U1"))]
      rfl rfl

/-- A registered team "T1" for the C8 witness. -/
def c8Team : Team :=
  Team.new []
    { id := "T1", fakeId := none, name := some "Acme", domain := none, icon := none }

/-- State holding team "T1", for the C8 witness. -/
def c8State : ClientState :=
  { tokens := [], teams := [("T1", c8Team)], webMap := [], rtmMap := [], startup := [] }

/-- A channel datum of the first page, for the C8 witness. -/
def c8Chan : IChannelData :=
  { id := "C1", team_id := none, shared_team_ids := none, name := some "general" }

/-- First channel page (cursor "a"), for the C8 witness. -/
def c8R1 : IConversationsListResponse :=
  { ok := true, channels := some [c8Chan], next_cursor := some "a" }

/-- Second channel page (cursor "b"), for the C8 witness. -/
def c8R2 : IConversationsListResponse :=
  { ok := true, channels := some [], next_cursor := some "b" }

/-- Final channel page (empty cursor), for the C8 witness. -/
def c8R3 : IConversationsListResponse :=
  { ok := true, channels := some [], next_cursor := some "" }

/-- A member of the first user page, for the C8 witness. -/
def c8User : IUserData :=
  { id := some "U1", bot_id := none, team_id := "T1", name := none, fullBot := false }

/-- First user page (cursor "a"), for the C8 witness. -/
def c8S1 : IUsersListResponse :=
  { ok := true, members := some [c8User], next_cursor := some "a" }

/-- Second user page (cursor "b"), for the C8 witness. -/
def c8S2 : IUsersListResponse :=
  { ok := true, members := some [], next_cursor := some "b" }

/-- Final user page (empty cursor), for the C8 witness. -/
def c8S3 : IUsersListResponse :=
  { ok := true, members := some [], next_cursor := some "" }

/-- Witness for C8: with cursors "a" → "b" → "", both loops issue exactly 3
calls and aggregate the three pages. -/
theorem c8_pagination_drain_witness :
    ((3 : Nat) = 3 ∧ ([c8Chan] : List IChannelData) = [c8Chan] ++ [] ++ []) ∧
    ((3 : Nat) = 3 ∧ ([c8User] : List IUserData) = [c8User] ++ [] ++ []) := by
  constructor
  · exact c8_pagination_drain.1 (fun _ => none) "T1" c8State c8R1 c8R2 c8R3
      [c8Chan] [] [] _ _ [c8Chan] 3 rfl rfl rfl rfl rfl rfl rfl rfl rfl rfl
  · exact c8_pagination_drain.2 (fun _ => none) c8State c8S1 c8S2 c8S3
      [c8User] [] [] _ _ [c8User] 3 rfl rfl rfl rfl rfl rfl rfl rfl rfl rfl
